import Mathlib

/-!
# Verification of the sshtail multi-session orchestrator

Shallow embedding of the `sshtail` repository's session orchestrator.
The repository contains several historical variants of the writer:

* variant A: package `sshtail` (src/unnamed/part_000, first document) —
  context-cancellable, multi-sink `ConsolidatedWriter` with `TailSession`;
* variant B: package `sshtail` (src/unnamed/part_000, second document) —
  channel-guarded `ConsolidatedWriter` over `TailSshClient`;
* variant S: package `specfile` (src/pkg/specfile/sshspec.go) — older
  all-in-one variant with its own `TailSession` and `ConsolidatedWriter`;
* the spec-file validation logic (src/unnamed/part_002).

Effectful collaborators (the SSH transport, remote-execution handles, file
stat/write results) are modelled as explicit environment fields carried by
the state: each fallible external call is represented by the `Option String`
error it would return.
-/

namespace Sshtail

/-- Environment of one tail session: the outcomes of the external SSH calls
it makes.  `newSessionErr` is the error returned by `client.Client.NewSession()`,
`sessionCloseErr` the error from `s.session.Close()`, and `clientCloseErr`
the error from `s.client.Client.Close()`. -/
structure SessionEnv where
  newSessionErr : Option String
  sessionCloseErr : Option String
  clientCloseErr : Option String
  deriving Repr, DecidableEq

/-- An environment in which every external call succeeds. -/
def SessionEnv.clean : SessionEnv := ⟨none, none, none⟩

/-- Variant A `TailSession` (part_000, first document, lines 136-211).
`sessionSome` models `s.session != nil` (the struct has no separate
`started` field in this variant: `Started()` returns `s.session != nil`). -/
structure TailSessionA where
  hostTag : String
  file : String
  env : SessionEnv
  sessionSome : Bool
  closed : Bool
  deriving Repr, DecidableEq

/-- Variant A `TailSession.Started` (part_000 lines 150-152). -/
def TailSessionA.startedA (s : TailSessionA) : Bool := s.sessionSome

/-- Variant A `TailSession.Close` (part_000 lines 155-181): no-op when
already closed; otherwise closes the remote-execution handle and the
transport, concatenates their error strings, and — only when both closes
succeeded — marks the session closed.  On the error path the function
returns before `s.closed = true` is reached. -/
def TailSessionA.closeA (s : TailSessionA) : TailSessionA × Option String :=
  if s.closed then (s, none)
  else
    let errorString :=
      (match s.env.sessionCloseErr with | some e => e | none => "") ++
      (match s.env.clientCloseErr with | some e => e | none => "")
    if errorString.length > 0 then
      (s, some ("error(s) closing tail session: " ++ errorString))
    else
      ({ s with closed := true }, none)

/-- Variant A `TailSession.Start` (part_000 lines 184-206): the only guard is
`s.session != nil`; there is no check of the `closed` flag.  On success the
remote execution handle is opened (`sessionSome := true`) and the tail
command is issued asynchronously. -/
def TailSessionA.startA (s : TailSessionA) : TailSessionA × Option String :=
  if s.sessionSome then (s, some "tail session is already started")
  else
    match s.env.newSessionErr with
    | some e => (s, some ("error establishing session: " ++ e))
    | none => ({ s with sessionSome := true }, none)

/-- Variant S `TailSession` (sshspec.go lines 141-148): separate `started`
flag in addition to the session handle. -/
structure TailSessionS where
  hostTag : String
  file : String
  env : SessionEnv
  startedFlag : Bool
  sessionSome : Bool
  closed : Bool
  deriving Repr, DecidableEq

/-- Variant S `TailSession.Close` (sshspec.go lines 161-190): when not yet
closed it sets `s.closed = true` FIRST, then closes the handle and the
transport, and returns the concatenated errors (if any); already-closed
sessions return nil immediately. -/
def TailSessionS.closeS (s : TailSessionS) : TailSessionS × Option String :=
  if s.closed then (s, none)
  else
    let sb :=
      (match s.env.sessionCloseErr with | some e => e | none => "") ++
      (match s.env.clientCloseErr with | some e => e | none => "")
    let errorsOccurred := s.env.sessionCloseErr.isSome || s.env.clientCloseErr.isSome
    ({ s with closed := true },
     if errorsOccurred then some ("error(s) closing tail session: " ++ sb) else none)

/-- Variant S `TailSession.start` (sshspec.go lines 193-220): guards `closed`
first, then `started`, then opens the session and sets both handle and flag. -/
def TailSessionS.startS (s : TailSessionS) : TailSessionS × Option String :=
  if s.closed then (s, some "can't start a closed tail session")
  else if s.startedFlag then (s, some "tail session is already started")
  else
    match s.env.newSessionErr with
    | some e => (s, some ("error establishing session: " ++ e))
    | none => ({ s with sessionSome := true, startedFlag := true }, none)

/-- Variant A `TailChannelWriter.Write` (part_000 lines 131-134): pushes
exactly one string `fmt.Sprintf("%s | %s", tag, string(b))` onto the shared
channel and returns `len(b), nil`.  The result records the list of strings
pushed (always a singleton) and the returned byte count. -/
def tailChannelWriterWriteA (tag b : String) : List String × Nat :=
  ([tag ++ " | " ++ b], b.utf8ByteSize)

/-- Variant S `TailChannelWriter.Write` (sshspec.go lines 135-139): pushes
exactly one string `fmt.Sprintf("[ %s ] %s", tag, string(b))` and returns
`len(b), nil`. -/
def tailChannelWriterWriteS (tag b : String) : List String × Nat :=
  (["[ " ++ tag ++ " ] " ++ b], b.utf8ByteSize)

/-- An output-file handle.  `statErr` is the environment outcome of
`file.Stat()`; `isOpen` tracks whether the OS handle is still open;
`writeOk` is the environment predicate telling whether appending a given
line to this file succeeds. -/
structure FileHandle where
  name : String
  statErr : Option String
  isOpen : Bool
  writeOk : String → Bool
  written : List String
  attempts : List String

/-- Variant A `ConsolidatedWriter` (part_000 lines 213-221).  `chCap` is the
capacity the shared channel was allocated with; `startedFlag` mirrors the
struct's `started` field (which the variant-A code never reads or sets). -/
structure ConsolidatedWriterA where
  chCap : Nat
  sessions : List TailSessionA
  out : FileHandle
  startedFlag : Bool
  closed : Bool
  outputFiles : List FileHandle

/-- Variant A `ConsolidatedWriter.AddOutputFile` (part_000 lines 247-256):
stat the file; on error return it unchanged, otherwise append the handle to
`outputFiles` and return nil.  There is no check of `started` or `closed`. -/
def ConsolidatedWriterA.addOutputFile (c : ConsolidatedWriterA) (f : FileHandle) :
    ConsolidatedWriterA × Option String :=
  match f.statErr with
  | some e => (c, some e)
  | none => ({ c with outputFiles := c.outputFiles ++ [f] }, none)

/-- Variant A `ConsolidatedWriter.Close` (part_000 lines 259-281): no-op when
already closed; otherwise close every started, not-yet-closed session
(errors ignored), close every output file (errors ignored), and mark the
writer closed. -/
def ConsolidatedWriterA.closeA (c : ConsolidatedWriterA) : ConsolidatedWriterA × Option String :=
  if c.closed then (c, none)
  else
    let sessions := c.sessions.map (fun ts =>
      if !ts.startedA || ts.closed then ts else (ts.closeA).1)
    let outputFiles := c.outputFiles.map (fun f => { f with isOpen := false })
    ({ c with sessions := sessions, outputFiles := outputFiles, closed := true }, none)

/-- The session loop of variant A `ConsolidatedWriter.Start` (part_000 lines
286-296): walk the sessions in order, skipping each that is already started
or closed; start the rest; stop at the first start error, leaving the
remaining sessions untouched. -/
def startSessionsA : List TailSessionA → List TailSessionA × Option String
  | [] => ([], none)
  | ts :: rest =>
    if ts.startedA || ts.closed then
      let r := startSessionsA rest
      (ts :: r.1, r.2)
    else
      match ts.startA with
      | (ts2, none) =>
        let r := startSessionsA rest
        (ts2 :: r.1, r.2)
      | (ts2, some e) => (ts2 :: rest, some e)

/-- Variant A `ConsolidatedWriter.Start` (part_000 lines 284-329): run the
session loop; on the first session-start error call `c.Close()` and return
that error without spawning the dispatch goroutine; otherwise spawn exactly
one dispatch goroutine, wait on the completion barrier, and return nil.
There is no guard against a second call and the struct's `started` flag is
never consulted or set.  The `Bool` in the result records whether a dispatch
goroutine was spawned by this call. -/
def ConsolidatedWriterA.startA (c : ConsolidatedWriterA) :
    ConsolidatedWriterA × Option String × Bool :=
  let r := startSessionsA c.sessions
  let c2 : ConsolidatedWriterA := { c with sessions := r.1 }
  match r.2 with
  | some e => ((c2.closeA).1, some e, false)
  | none => (c2, none, true)

/-- Variant S `ConsolidatedWriter` (sshspec.go lines 227-235). -/
structure ConsolidatedWriterS where
  chCap : Nat
  sessions : List TailSessionS
  out : FileHandle
  startedFlag : Bool
  closed : Bool
  outputFiles : List FileHandle

/-- Variant S `ConsolidatedWriter.AddOutputFile` (sshspec.go lines 261-270):
identical to variant A — stat, on error return it, else append; no
lifecycle guard. -/
def ConsolidatedWriterS.addOutputFile (c : ConsolidatedWriterS) (f : FileHandle) :
    ConsolidatedWriterS × Option String :=
  match f.statErr with
  | some e => (c, some e)
  | none => ({ c with outputFiles := c.outputFiles ++ [f] }, none)

/-- Variant S `ConsolidatedWriter.Close` (sshspec.go lines 273-287): closes
every started, not-yet-closed session and every output file, always returns
nil; it has no `closed` guard and never sets the writer's `closed` flag. -/
def ConsolidatedWriterS.closeS (c : ConsolidatedWriterS) : ConsolidatedWriterS × Option String :=
  let sessions := c.sessions.map (fun ts =>
    if ts.startedFlag && !ts.closed then (ts.closeS).1 else ts)
  let outputFiles := c.outputFiles.map (fun f => { f with isOpen := false })
  ({ c with sessions := sessions, outputFiles := outputFiles }, none)

/-- Variant B `ConsolidatedWriter` (part_000, second document, lines
372-377): the channel doubles as the started guard (`ch == nil` means not
started).  `chCap` is `none` when `c.ch` is nil, `some cap` otherwise. -/
structure ConsolidatedWriterB where
  chCap : Option Nat
  numClients : Nat

/-- Variant B `ConsolidatedWriter.Start` guard and channel allocation
(part_000 lines 411-416): a second call sees `c.ch != nil` and returns the
"already started" error; a first call allocates the channel with capacity
`1024*len(c.clients)`.  The `Bool` records whether a dispatch goroutine was
spawned by this call. -/
def ConsolidatedWriterB.startB (c : ConsolidatedWriterB) :
    ConsolidatedWriterB × Option String × Bool :=
  match c.chCap with
  | some _ => (c, some "already started", false)
  | none => ({ c with chCap := some (1024 * c.numClients) }, none, true)

/-! ## Spec-file validation (src/unnamed/part_002, package specfile) -/

/-- `specfile.DefaultSshPort` (part_002 line 32). -/
def DefaultSshPort : Nat := 22

/-- `specfile.HostSpec` (part_002 lines 52-59). -/
structure HostSpec where
  hostname : String
  port : Nat
  username : String
  identityFile : String
  file : String
  deriving Repr, DecidableEq

/-- `HostSpec.Validate` (part_002 lines 62-84), parameterised by the ambient
default username (`user.Current()`, backslash-split) and default identity
path (`~/.ssh/id_rsa`): reject a blank hostname, default a zero port to 22,
default a blank username and identity file, reject a blank file.  The
mutations performed before the blank-file check persist (pointer receiver),
so the possibly-updated host is returned together with the error. -/
def HostSpec.validate (defUser defIdent : String) (h : HostSpec) : HostSpec × Option String :=
  if h.hostname = "" then (h, some "cannot have a blank hostname")
  else
    let h1 := if h.port = 0 then { h with port := DefaultSshPort } else h
    let h2 := if h1.username = "" then { h1 with username := defUser } else h1
    let h3 := if h2.identityFile = "" then { h2 with identityFile := defIdent } else h2
    if h3.file = "" then (h3, some "cannot have a blank file")
    else (h3, none)

/-- `specfile.SpecData` (part_002 lines 86-89).  The Go `Hosts` map is
modelled as an association list of host tag to `HostSpec`. -/
structure SpecData where
  hosts : List (String × HostSpec)
  deriving Repr, DecidableEq

/-- The per-host loop of `SpecData.Validate` (part_002 lines 97-101): validate
each host in turn, returning the first failure wrapped as
`host spec <tag>: <err>`; hosts validated before the failing one keep their
applied defaults. -/
def validateHostsLoop (defUser defIdent : String) :
    List (String × HostSpec) → List (String × HostSpec) × Option String
  | [] => ([], none)
  | (k, v) :: rest =>
    match v.validate defUser defIdent with
    | (v2, none) =>
      let r := validateHostsLoop defUser defIdent rest
      ((k, v2) :: r.1, r.2)
    | (v2, some e) => ((k, v2) :: rest, some ("host spec " ++ k ++ ": " ++ e))

/-- `SpecData.Validate` (part_002 lines 92-104): reject an empty host set,
otherwise validate every host. -/
def SpecData.validate (defUser defIdent : String) (s : SpecData) : SpecData × Option String :=
  if s.hosts.isEmpty then (s, some "hosts must have at least one definition")
  else
    let r := validateHostsLoop defUser defIdent s.hosts
    (⟨r.1⟩, r.2)

/-- The defaults `HostSpec.Validate` applies on its success path, written as
a single record update: zero port becomes 22, blank username becomes the
current user, blank identity file becomes the default path; hostname and
file are never touched. -/
def applyDefaults (defUser defIdent : String) (h : HostSpec) : HostSpec :=
  { h with
    port := if h.port = 0 then DefaultSshPort else h.port,
    username := if h.username = "" then defUser else h.username,
    identityFile := if h.identityFile = "" then defIdent else h.identityFile }

/-! ## Client setup and writer construction -/

/-- `sshtail.ClientFilePair` (part_000 lines 70-75), without the live
transport handle. -/
structure ClientFilePair where
  hostTag : String
  file : String
  deriving Repr, DecidableEq

/-- Environment for variant A client setup: the key path registered for each
host tag (the Go code's `specData.Keys[hostTag].Path`), and the outcomes of
`LoadKey` and `ssh.Dial` per host tag. -/
structure ClientEnv where
  keyPath : String → String
  keyLoadErr : String → Option String
  dialErr : String → Option String

/-- The per-host loop of variant A `setupClients` (part_000 lines 113-120):
for each host, load the key then dial; the first failure aborts the loop.
The second component records the host tags for which a dial was attempted. -/
def setupClientsLoopA (env : ClientEnv) :
    List (String × HostSpec) → Except String (List ClientFilePair) × List String
  | [] => (.ok [], [])
  | (tag, host) :: rest =>
    match env.keyLoadErr tag with
    | some e => (.error ("failed to load key from " ++ env.keyPath tag ++ ": " ++ e), [])
    | none =>
      match env.dialErr tag with
      | some e =>
        (.error ("failed to connect to " ++ host.hostname ++ ":" ++ toString host.port ++ ": " ++ e),
         [tag])
      | none =>
        let r := setupClientsLoopA env rest
        match r.1 with
        | .error e => (.error e, tag :: r.2)
        | .ok pairs => (.ok (⟨tag, host.file⟩ :: pairs), tag :: r.2)

/-- Variant A `setupClients` (part_000 lines 104-123): validate the spec data
first — a validation failure returns `invalid spec data: <err>` before any
dial is attempted — then build one `ClientFilePair` per host. -/
def setupClientsA (defUser defIdent : String) (env : ClientEnv) (specData : SpecData) :
    Except String (List ClientFilePair) × List String :=
  match specData.validate defUser defIdent with
  | (_, some e) => (.error ("invalid spec data: " ++ e), [])
  | (s2, none) => setupClientsLoopA env s2.hosts

/-- Variant A `NewConsolidatedWriter` (part_000 lines 224-244): set up the
clients, allocate the shared channel with capacity `1024*numHosts`, and wrap
every client pair in a fresh (`session = nil`, `closed = false`)
`TailSession`.  `sessEnv` supplies each session's external-call environment
and `out` is the primary sink. -/
def newConsolidatedWriterA (defUser defIdent : String) (env : ClientEnv)
    (sessEnv : String → SessionEnv) (specData : SpecData) (out : FileHandle) :
    Except String ConsolidatedWriterA × List String :=
  match setupClientsA defUser defIdent env specData with
  | (.error e, ds) => (.error e, ds)
  | (.ok clientPairs, ds) =>
    let numHosts := specData.hosts.length
    let sessions := clientPairs.map (fun pair =>
      TailSessionA.mk pair.hostTag pair.file (sessEnv pair.hostTag) false false)
    (.ok ⟨1024 * numHosts, sessions, out, false, false, []⟩, ds)

/-- Environment for variant S client setup: the outcome of building the
known-hosts callback, plus key-load and dial outcomes per host tag. -/
structure ClientEnvS where
  knownHostsErr : Option String
  keyPath : String → String
  keyLoadErr : String → Option String
  dialErr : String → Option String

/-- The per-host loop of variant S `setupClients` (sshspec.go lines 103-125):
load the key, then dial, first failure aborts; dial attempts recorded. -/
def setupClientsLoopS (env : ClientEnvS) :
    List (String × HostSpec) → Except String (List ClientFilePair) × List String
  | [] => (.ok [], [])
  | (tag, host) :: rest =>
    match env.keyLoadErr tag with
    | some e => (.error ("failed to load key from " ++ env.keyPath tag ++ ": " ++ e), [])
    | none =>
      match env.dialErr tag with
      | some e =>
        (.error ("failed to connect to " ++ host.hostname ++ ":" ++ toString host.port ++ ": " ++ e),
         [tag])
      | none =>
        let r := setupClientsLoopS env rest
        match r.1 with
        | .error e => (.error e, tag :: r.2)
        | .ok pairs => (.ok (⟨tag, host.file⟩ :: pairs), tag :: r.2)

/-- Variant S `setupClients` (sshspec.go lines 89-128): validate first, then
build the known-hosts callback, then one client per host; validation or
callback failure happens before any dial. -/
def setupClientsS (defUser defIdent : String) (env : ClientEnvS) (specData : SpecData) :
    Except String (List ClientFilePair) × List String :=
  match specData.validate defUser defIdent with
  | (_, some e) => (.error ("invalid spec data: " ++ e), [])
  | (s2, none) =>
    match env.knownHostsErr with
    | some e => (.error e, [])
    | none => setupClientsLoopS env s2.hosts

/-- Variant S `NewConsolidatedWriter` (sshspec.go lines 238-258): identical
shape to variant A except the shared channel is allocated with capacity
`numHosts` (no factor 1024) and the sessions carry the extra `started`
flag. -/
def newConsolidatedWriterS (defUser defIdent : String) (env : ClientEnvS)
    (sessEnv : String → SessionEnv) (specData : SpecData) (out : FileHandle) :
    Except String ConsolidatedWriterS × List String :=
  match setupClientsS defUser defIdent env specData with
  | (.error e, ds) => (.error e, ds)
  | (.ok clientPairs, ds) =>
    let numHosts := specData.hosts.length
    let sessions := clientPairs.map (fun pair =>
      TailSessionS.mk pair.hostTag pair.file (sessEnv pair.hostTag) false false false)
    (.ok ⟨numHosts, sessions, out, false, false, []⟩, ds)

/-! ## The dispatch task (variant A, part_000 lines 299-323) -/

/-- One sink write: record the attempt; the line lands in `written` exactly
when this sink's own environment says the write succeeds.  Write errors are
only logged by the dispatch loop, never propagated. -/
def writeLine (line : String) (f : FileHandle) : FileHandle :=
  { f with
    attempts := f.attempts ++ [line],
    written := if f.writeOk line then f.written ++ [line] else f.written }

/-- The body of the dispatch loop for one dequeued line (part_000 lines
302-317): write the line to the primary sink (error ignored) and then to
every output file in registration order (error logged, loop continues).
Nothing else in the writer is touched. -/
def dispatchLineBody (line : String) (c : ConsolidatedWriterA) : ConsolidatedWriterA :=
  { c with
    out := writeLine line c.out,
    outputFiles := c.outputFiles.map (writeLine line) }

/-- The dispatch loop run over a list of dequeued lines, in order. -/
def dispatchLinesA : List String → ConsolidatedWriterA → ConsolidatedWriterA
  | [], c => c
  | l :: rest, c => dispatchLinesA rest (dispatchLineBody l c)

/-! ## Concrete instances used by witnesses and counterexamples -/

/-- A healthy output handle whose writes always succeed. -/
def demoFile : FileHandle := ⟨"out.log", none, true, fun _ => true, [], []⟩

/-- A host spec with every field populated. -/
def demoHost : HostSpec := ⟨"remote-host-1", 22, "me", "/home/me/.ssh/id_rsa", "/var/log/syslog"⟩

/-- A one-host spec whose validation succeeds. -/
def demoSpec : SpecData := ⟨[("host1", demoHost)]⟩

/-- A variant A client environment in which every external call succeeds. -/
def cleanClientEnv : ClientEnv := ⟨fun _ => "/home/me/.ssh/id_rsa", fun _ => none, fun _ => none⟩

/-- A variant S client environment in which every external call succeeds. -/
def cleanClientEnvS : ClientEnvS :=
  ⟨none, fun _ => "/home/me/.ssh/id_rsa", fun _ => none, fun _ => none⟩

/-- A freshly constructed variant A writer with one not-yet-started session. -/
def c1FreshWriter : ConsolidatedWriterA :=
  ⟨1024, [⟨"host1", "/var/log/syslog", SessionEnv.clean, false, false⟩], demoFile, false, false, []⟩

/-- A started, not-yet-closed variant A session whose remote-execution handle
close fails. -/
def c2Session : TailSessionA :=
  ⟨"host1", "/var/log/syslog", ⟨none, some "close failed", none⟩, true, false⟩

/-- A closed, never-started variant A session. -/
def c5Session : TailSessionA := ⟨"host1", "/var/log/syslog", SessionEnv.clean, false, true⟩

/-- A fresh session that will start cleanly. -/
def c3Pre : TailSessionA := ⟨"h1", "/f1", SessionEnv.clean, false, false⟩

/-- A fresh session whose `NewSession` call fails. -/
def c3Fail : TailSessionA := ⟨"h2", "/f2", ⟨some "boom", none, none⟩, false, false⟩

/-- A fresh session positioned after the failing one. -/
def c3Post : TailSessionA := ⟨"h3", "/f3", SessionEnv.clean, false, false⟩

/-- A variant A writer that is both started and closed, used to show
`AddOutputFile` ignores the lifecycle flags. -/
def c10WriterA : ConsolidatedWriterA := ⟨1024, [], demoFile, true, true, []⟩

/-- A variant S writer that is both started and closed. -/
def c10WriterS : ConsolidatedWriterS := ⟨1, [], demoFile, true, true, []⟩

/-- The writer produced by variant A construction from `demoSpec`. -/
def c9WriterA : ConsolidatedWriterA :=
  ⟨1024, [⟨"host1", "/var/log/syslog", SessionEnv.clean, false, false⟩], demoFile, false, false, []⟩

/-- A one-host spec relying on every default. -/
def c7Spec : SpecData := ⟨[("host1", ⟨"remote-host-1", 0, "", "", "/var/log/syslog"⟩)]⟩

/-! ## Claim theorems -/

/-- Claim C1: the variant A `ConsolidatedWriter.Start` has no already-started
guard.  Starting a fresh one-session writer succeeds; calling `Start` again
on the resulting writer returns nil instead of an error and spawns a second
dispatch goroutine.  This evaluates the code at the claim's failing input. -/
theorem c1_second_start_nil_and_respawn :
    (c1FreshWriter.startA).2.1 = none ∧
    ((c1FreshWriter.startA).1.startA).2.1 = none ∧
    ((c1FreshWriter.startA).1.startA).2.2 = true :=
  ⟨rfl, rfl, rfl⟩

/-- Claim C2: variant A `TailSession.Close` on a started, not-yet-closed session
whose remote-execution handle close fails returns the combined error but
leaves the session completely unchanged — in particular the `closed` flag
stays false, contradicting "always marks closed even if sub-closes
failed". -/
theorem c2_close_error_leaves_unmarked :
    (c2Session.closeA).1.closed = false ∧
    (c2Session.closeA).1 = c2Session ∧
    (c2Session.closeA).2 = some "error(s) closing tail session: close failed" := by
  decide

/-- Claim C5: variant A `TailSession.Start` only guards `session != nil`; a
closed, never-started session is started rather than rejected: `Start`
returns nil and opens the remote-execution handle even though
`closed = true`. -/
theorem c5_closed_session_start_not_rejected :
    c5Session.closed = true ∧
    (c5Session.startA).2 = none ∧
    (c5Session.startA).1.sessionSome = true := by
  decide

/-- Claim C6 counterexample: the variant S output adapter does not push
`tag ++ " | " ++ b`; it pushes `"[ " ++ tag ++ " ] " ++ b`, and the pushed
line does not begin with the originating session's tag. -/
theorem c6_specfile_format_differs :
    (tailChannelWriterWriteS "host1" "lineA").1 ≠ ["host1" ++ " | " ++ "lineA"] ∧
    (tailChannelWriterWriteS "host1" "lineA").1 = ["[ host1 ] lineA"] ∧
    List.isPrefixOf "host1".data "[ host1 ] lineA".data = false := by
  decide

/-- Claim C6 (amended): each write pushes exactly one string onto the shared
channel and reports `len(b)` bytes written; the variant A (package
`sshtail`) adapter pushes `tag ++ " | " ++ b` with `b` verbatim, while the
variant S (package `specfile`) adapter pushes `"[ " ++ tag ++ " ] " ++ b`. -/
theorem c6_write_formats (tag b : String) :
    tailChannelWriterWriteA tag b = ([tag ++ " | " ++ b], b.utf8ByteSize) ∧
    tailChannelWriterWriteS tag b = (["[ " ++ tag ++ " ] " ++ b], b.utf8ByteSize) :=
  ⟨rfl, rfl⟩

/-- Claim C10: `AddOutputFile` performs no lifecycle check in either variant: for
every writer state — whatever the `started` and `closed` flags — a file
whose stat succeeds is appended as exactly one new sink with a nil return,
and a file whose stat fails leaves the sink list unchanged and returns the
stat error. -/
theorem c10_addOutputFile_no_guard (cA : ConsolidatedWriterA) (cS : ConsolidatedWriterS)
    (f : FileHandle) :
    (f.statErr = none →
      cA.addOutputFile f = ({ cA with outputFiles := cA.outputFiles ++ [f] }, none) ∧
      cS.addOutputFile f = ({ cS with outputFiles := cS.outputFiles ++ [f] }, none)) ∧
    (∀ e, f.statErr = some e →
      cA.addOutputFile f = (cA, some e) ∧
      cS.addOutputFile f = (cS, some e)) := by
  constructor
  · intro h
    constructor <;>
      simp [ConsolidatedWriterA.addOutputFile, ConsolidatedWriterS.addOutputFile, h]
  · intro e h
    constructor <;>
      simp [ConsolidatedWriterA.addOutputFile, ConsolidatedWriterS.addOutputFile, h]

/-- Claim C10 witness: on a writer that is both started and closed, adding a
stat-able file still succeeds and appends the sink. -/
theorem c10_addOutputFile_no_guard_witness :
    demoFile.statErr = none ∧
    c10WriterA.addOutputFile demoFile =
      ({ c10WriterA with outputFiles := c10WriterA.outputFiles ++ [demoFile] }, none) :=
  ⟨rfl, ((c10_addOutputFile_no_guard c10WriterA c10WriterS demoFile).1 rfl).1⟩

/-- Closing the sessions of a variant S writer a second time changes
nothing: every session the first pass closed now fails the
`started && !closed` guard. -/
theorem closeS_sessions_map_idem (l : List TailSessionS) :
    (l.map (fun ts => if ts.startedFlag && !ts.closed then (ts.closeS).1 else ts)).map
        (fun ts => if ts.startedFlag && !ts.closed then (ts.closeS).1 else ts) =
      l.map (fun ts => if ts.startedFlag && !ts.closed then (ts.closeS).1 else ts) := by
  induction l with
  | nil => rfl
  | cons ts rest ih =>
    simp only [List.map_cons, ih]
    congr 1
    by_cases h1 : ts.startedFlag <;> by_cases h2 : ts.closed <;>
      simp [TailSessionS.closeS, h1, h2]

/-- Re-closing already-closed file handles changes nothing. -/
theorem closeFiles_map_idem (l : List FileHandle) :
    (l.map (fun f => { f with isOpen := false })).map (fun f => { f with isOpen := false }) =
      l.map (fun f => { f with isOpen := false }) := by
  induction l with
  | nil => rfl
  | cons f rest ih => simp only [List.map_cons, ih]

/-- Claim C4: `ConsolidatedWriter.Close` is idempotent in both variants: a second
call leaves the writer — flags, session states, sink handles — exactly as
the first call left it, and returns nil.  (Variant A short-circuits on its
`closed` flag; variant S has no guard but re-runs to the same state.) -/
theorem c4_close_idempotent (cA : ConsolidatedWriterA) (cS : ConsolidatedWriterS) :
    (cA.closeA).1.closeA = ((cA.closeA).1, none) ∧
    (cS.closeS).1.closeS = ((cS.closeS).1, none) := by
  constructor
  · by_cases h : cA.closed <;> simp [ConsolidatedWriterA.closeA, h]
  · simp only [ConsolidatedWriterS.closeS]
    rw [closeS_sessions_map_idem, closeFiles_map_idem]

/-- Claim C9: the shared channel is sized at a constant factor times the session
count: `1024*numHosts` in the variant A constructor, `numHosts` (factor 1)
in the variant S constructor, and `1024*len(c.clients)` in the variant B
`Start`, which performs the allocation itself. -/
theorem c9_channel_capacity (du di : String) (envA : ClientEnv) (envS : ClientEnvS)
    (sEnv : String → SessionEnv) (s : SpecData) (out : FileHandle) :
    (∀ w, (newConsolidatedWriterA du di envA sEnv s out).1 = .ok w →
      w.chCap = 1024 * s.hosts.length) ∧
    (∀ w, (newConsolidatedWriterS du di envS sEnv s out).1 = .ok w →
      w.chCap = s.hosts.length) ∧
    (∀ n, ((ConsolidatedWriterB.mk none n).startB).1.chCap = some (1024 * n)) := by
  refine ⟨?_, ?_, fun n => rfl⟩
  · intro w hw
    unfold newConsolidatedWriterA at hw
    rcases h : setupClientsA du di envA s with ⟨r, ds⟩
    rw [h] at hw
    cases r with
    | error e => simp at hw
    | ok pairs =>
      simp only at hw
      cases hw
      rfl
  · intro w hw
    unfold newConsolidatedWriterS at hw
    rcases h : setupClientsS du di envS s with ⟨r, ds⟩
    rw [h] at hw
    cases r with
    | error e => simp at hw
    | ok pairs =>
      simp only at hw
      cases hw
      rfl

/-- Claim C9 witness: constructing from the one-host `demoSpec` in a clean
environment yields the concrete writer `c9WriterA`, whose channel capacity
is `1024 * 1`. -/
theorem c9_channel_capacity_witness :
    c9WriterA.chCap = 1024 * demoSpec.hosts.length :=
  (c9_channel_capacity "me" "/home/me/.ssh/id_rsa" cleanClientEnv cleanClientEnvS
    (fun _ => SessionEnv.clean) demoSpec demoFile).1 c9WriterA rfl

/-- Folding the per-line write over a list of lines records every line as
attempted and lands exactly those lines the handle's own environment
accepts. -/
theorem writeLine_fold (lines : List String) (f : FileHandle) :
    lines.foldl (fun g l => writeLine l g) f =
      { f with attempts := f.attempts ++ lines,
               written := f.written ++ lines.filter f.writeOk } := by
  induction lines generalizing f with
  | nil => simp
  | cons l rest ih =>
    rw [List.foldl_cons, ih]
    by_cases h : f.writeOk l <;>
      simp [writeLine, h, List.filter_cons, List.append_assoc]

/-- The dispatch loop is the per-handle fold applied to the primary sink and
to each output file independently. -/
theorem dispatchLinesA_foldl (lines : List String) (c : ConsolidatedWriterA) :
    dispatchLinesA lines c =
      { c with out := lines.foldl (fun g l => writeLine l g) c.out,
               outputFiles := c.outputFiles.map
                 (fun f => lines.foldl (fun g l => writeLine l g) f) } := by
  induction lines generalizing c with
  | nil => simp [dispatchLinesA]
  | cons l rest ih =>
    rw [dispatchLinesA, ih]
    simp [dispatchLineBody, List.map_map, Function.comp_def]

/-- Claim C8: per-sink write failures are isolated.  Running the dispatch loop
over any sequence of dequeued lines writes every line to the primary sink
and attempts every line on every auxiliary sink in order; each sink's
successful writes depend only on that sink's own environment, so a failure
on one auxiliary sink can neither suppress a line on the primary or on
another sink nor stop the loop, and the loop never closes the writer or
touches its sessions. -/
theorem c8_sink_failures_isolated (lines : List String) (c : ConsolidatedWriterA) :
    dispatchLinesA lines c =
      { c with
        out := { c.out with
                 attempts := c.out.attempts ++ lines,
                 written := c.out.written ++ lines.filter c.out.writeOk },
        outputFiles := c.outputFiles.map (fun f =>
          { f with
            attempts := f.attempts ++ lines,
            written := f.written ++ lines.filter f.writeOk }) } ∧
    (dispatchLinesA lines c).closed = c.closed ∧
    (dispatchLinesA lines c).sessions = c.sessions := by
  rw [dispatchLinesA_foldl]
  refine ⟨?_, rfl, rfl⟩
  simp [writeLine_fold]

/-- Running the variant A session-start loop over fresh sessions up to a
session whose `NewSession` call fails: every earlier session is started, the
failing session and everything after it are left untouched, and the failing
session's error is returned. -/
theorem startSessionsA_fail (pre post : List TailSessionA) (sk : TailSessionA) (m : String)
    (hpre : ∀ ts ∈ pre, ts.sessionSome = false ∧ ts.closed = false ∧
      ts.env.newSessionErr = none)
    (hk1 : sk.sessionSome = false) (hk2 : sk.closed = false)
    (hk3 : sk.env.newSessionErr = some m) :
    startSessionsA (pre ++ sk :: post) =
      (pre.map (fun ts => { ts with sessionSome := true }) ++ sk :: post,
       some ("error establishing session: " ++ m)) := by
  induction pre with
  | nil =>
    simp [startSessionsA, TailSessionA.startedA, TailSessionA.startA, hk1, hk2, hk3]
  | cons ts rest ih =>
    obtain ⟨h1, h2, h3⟩ := hpre ts (List.mem_cons_self ts rest)
    have ihr := ih fun t ht => hpre t (List.mem_cons_of_mem ts ht)
    simp [startSessionsA, TailSessionA.startedA, TailSessionA.startA, h1, h2, h3, ihr]

/-- Claim C3: on a fresh variant A writer whose sessions are `pre ++ sk :: post`
with every session in `pre` starting and closing cleanly and `sk` failing to
start, `Start` returns `sk`'s error without spawning a dispatch task; every
session in `pre` ends started-and-closed (torn down by the `Close` call),
`sk` is untouched, no session in `post` is ever started, the writer is
marked closed, and its output files are closed. -/
theorem c3_partial_start_teardown (cap : Nat) (out : FileHandle) (files : List FileHandle)
    (pre post : List TailSessionA) (sk : TailSessionA) (m : String)
    (hpre : ∀ ts ∈ pre, ts.sessionSome = false ∧ ts.closed = false ∧
      ts.env.newSessionErr = none ∧ ts.env.sessionCloseErr = none ∧
      ts.env.clientCloseErr = none)
    (hpost : ∀ ts ∈ post, ts.sessionSome = false)
    (hk1 : sk.sessionSome = false) (hk2 : sk.closed = false)
    (hk3 : sk.env.newSessionErr = some m) :
    (ConsolidatedWriterA.mk cap (pre ++ sk :: post) out false false files).startA =
      (ConsolidatedWriterA.mk cap
        (pre.map (fun ts => { ts with sessionSome := true, closed := true }) ++ sk :: post)
        out false true (files.map (fun f => { f with isOpen := false })),
       some ("error establishing session: " ++ m), false) := by
  have hloop := startSessionsA_fail pre post sk m
    (fun ts hts => ⟨(hpre ts hts).1, (hpre ts hts).2.1, (hpre ts hts).2.2.1⟩) hk1 hk2 hk3
  unfold ConsolidatedWriterA.startA
  rw [hloop]
  simp only [ConsolidatedWriterA.closeA]
  refine congrArg (fun s => (s, some ("error establishing session: " ++ m), false)) ?_
  simp only [if_neg (Bool.false_ne_true)]
  refine congrArg₂ (fun a b => ConsolidatedWriterA.mk cap a out false true b) ?_ rfl
  rw [List.map_append, List.map_cons]
  refine congrArg₂ (· ++ ·) ?_ ?_
  · rw [List.map_map]
    refine List.map_congr_left fun ts hts => ?_
    obtain ⟨h1, h2, h3, h4, h5⟩ := hpre ts hts
    simp [TailSessionA.startedA, TailSessionA.closeA, h2, h4, h5]
  · refine congrArg₂ (· :: ·) ?_ ?_
    · simp [TailSessionA.startedA, hk1]
    · refine (List.map_congr_left fun ts hts => ?_).trans (List.map_id post)
      simp [TailSessionA.startedA, hpost ts hts]

/-- Claim C3 witness: with three fresh sessions of which the second fails to
start, `Start` starts and then closes the first, returns the second's
error, never starts the third, and spawns no dispatch task. -/
theorem c3_partial_start_teardown_witness :
    (ConsolidatedWriterA.mk 3072 ([c3Pre] ++ c3Fail :: [c3Post]) demoFile false false []).startA =
      (ConsolidatedWriterA.mk 3072
        ([c3Pre].map (fun ts => { ts with sessionSome := true, closed := true }) ++
          c3Fail :: [c3Post])
        demoFile false true (([] : List FileHandle).map (fun f => { f with isOpen := false })),
       some ("error establishing session: " ++ "boom"), false) :=
  c3_partial_start_teardown 3072 demoFile [] [c3Pre] [c3Post] c3Fail "boom"
    (by decide) (by decide) (by decide) (by decide) (by decide)

/-- `HostSpec.Validate` in closed form: it rejects exactly a blank hostname
or a blank file, and otherwise returns the host with the defaults applied;
the defaults are also applied on the blank-file error path (the Go method
mutates through a pointer receiver before the file check). -/
theorem hostSpec_validate_eq (du di : String) (v : HostSpec) :
    v.validate du di =
      if v.hostname = "" then (v, some "cannot have a blank hostname")
      else if v.file = "" then (applyDefaults du di v, some "cannot have a blank file")
      else (applyDefaults du di v, none) := by
  unfold HostSpec.validate applyDefaults
  by_cases h1 : v.hostname = "" <;>
    by_cases hp : v.port = 0 <;> by_cases hu : v.username = "" <;>
      by_cases hi : v.identityFile = "" <;>
    simp [h1, hp, hu, hi]

/-- The host-validation loop succeeds exactly when every host has a
non-blank hostname and file. -/
theorem validateHostsLoop_none_iff (du di : String) (l : List (String × HostSpec)) :
    (validateHostsLoop du di l).2 = none ↔
      ∀ kv ∈ l, kv.2.hostname ≠ "" ∧ kv.2.file ≠ "" := by
  induction l with
  | nil => simp [validateHostsLoop]
  | cons kv rest ih =>
    obtain ⟨k, v⟩ := kv
    rw [validateHostsLoop, hostSpec_validate_eq]
    by_cases h1 : v.hostname = "" <;> by_cases hf : v.file = "" <;> simp [h1, hf, ih]

/-- On success, the host-validation loop returns every host with exactly the
defaults applied and all other fields unchanged. -/
theorem validateHostsLoop_none_map (du di : String) (l : List (String × HostSpec))
    (h : (validateHostsLoop du di l).2 = none) :
    (validateHostsLoop du di l).1 = l.map (fun kv => (kv.1, applyDefaults du di kv.2)) := by
  induction l with
  | nil => simp [validateHostsLoop]
  | cons kv rest ih =>
    obtain ⟨k, v⟩ := kv
    rw [validateHostsLoop, hostSpec_validate_eq] at h ⊢
    by_cases h1 : v.hostname = "" <;> by_cases hf : v.file = "" <;>
      simp [h1, hf] at h ⊢
    exact ih h

/-- Claim C7: `SpecData.Validate` fails exactly when the host set is empty or some
host has a blank hostname or blank file; on success every host's zero port
becomes 22, blank username becomes the current user, and blank identity
file becomes the default identity path, with already-set fields unchanged;
and when validation fails, `setupClients` returns the wrapped error with no
dial ever attempted. -/
theorem c7_validate_characterisation (du di : String) (envA : ClientEnv) (s : SpecData) :
    ((s.validate du di).2 = none ↔
      s.hosts ≠ [] ∧ ∀ kv ∈ s.hosts, kv.2.hostname ≠ "" ∧ kv.2.file ≠ "") ∧
    ((s.validate du di).2 = none →
      (s.validate du di).1.hosts = s.hosts.map (fun kv => (kv.1, applyDefaults du di kv.2))) ∧
    (∀ e, (s.validate du di).2 = some e →
      (setupClientsA du di envA s).1 = .error ("invalid spec data: " ++ e) ∧
      (setupClientsA du di envA s).2 = []) := by
  refine ⟨?_, ?_, ?_⟩
  · by_cases he : s.hosts.isEmpty
    · rw [List.isEmpty_iff] at he
      simp [SpecData.validate, he]
    · have hne : s.hosts ≠ [] := fun h => he (by simp [h])
      simp [SpecData.validate, he, validateHostsLoop_none_iff, hne]
  · intro h
    by_cases he : s.hosts.isEmpty
    · rw [List.isEmpty_iff] at he
      simp [SpecData.validate, he] at h
    · simp only [SpecData.validate, he, Bool.false_eq_true, if_false] at h ⊢
      exact validateHostsLoop_none_map du di s.hosts h
  · intro e he
    unfold setupClientsA
    rcases hv : s.validate du di with ⟨s2, err⟩
    rw [hv] at he
    simp only at he
    subst he
    simp

/-- Claim C7 witness: validating a one-host spec whose port, username and
identity file are unset succeeds and fills in exactly the defaults. -/
theorem c7_validate_characterisation_witness :
    (c7Spec.validate "me" "/home/me/.ssh/id_rsa").1.hosts =
      c7Spec.hosts.map (fun kv => (kv.1, applyDefaults "me" "/home/me/.ssh/id_rsa" kv.2)) :=
  (c7_validate_characterisation "me" "/home/me/.ssh/id_rsa" cleanClientEnv c7Spec).2.1
    (by decide)

end Sshtail
